import Mathlib

/-!
Verification of backchannel-bot's response-completion-detection core.

This file gives a shallow embedding of the code paths of
`src/backchannel_bot/claude_client.py` (event-stream parser and session
protocol driver) and `src/backchannel_bot/tmux_client.py` (ANSI
escape-sequence normalizer), plus the Output Diff Engine described in the
specification, and proves or refutes the stated properties about them.
-/

/-- A decoded JSON value, as produced by Python's `json.loads`: `None`,
booleans, numbers (the protocol only uses integers), strings, lists and
objects.  Objects are association lists with unique keys, mirroring the
Python `dict` that `json.loads` returns. -/
inductive Json where
  | null : Json
  | bool : Bool → Json
  | num : Int → Json
  | str : String → Json
  | arr : List Json → Json
  | obj : List (String × Json) → Json

/-- `d.get(k, default)` on a decoded JSON object represented as an
association list (Python `dict.get` with a default). -/
def dictGetD (fields : List (String × Json)) (k : String) (d : Json) : Json :=
  (List.lookup k fields).getD d

/-- `j == "s"` in Python for a decoded JSON value `j` and a string literal:
true exactly when `j` is that string. -/
def Json.isStr (j : Json) (s : String) : Bool :=
  match j with
  | .str t => t == s
  | _ => false

/-- Whether a decoded value is a JSON object (a Python `dict`). -/
def Json.isObj : Json → Bool
  | .obj _ => true
  | _ => false

/-- `j.get(k)` with no default on a decoded value: `None` when the key is
missing.  Defined here only for object values; every use site is guarded
by the protocol providing an object (see the well-formedness predicates
below where the source would instead raise on a non-dict). -/
def Json.objLookup (j : Json) (k : String) : Option Json :=
  match j with
  | .obj fields => List.lookup k fields
  | _ => none

/-- `j.get(k, d)` on a decoded value, dict-style access with a default. -/
def Json.objGetD (j : Json) (k : String) (d : Json) : Json :=
  (j.objLookup k).getD d

/-- Python truthiness of a decoded JSON value (`if x:`). -/
def pyTruthy : Json → Bool
  | .null => false
  | .bool b => b
  | .num n => n != 0
  | .str s => !s.isEmpty
  | .arr xs => !xs.isEmpty
  | .obj fs => !fs.isEmpty

/-- Python truthiness of an optional value (`dict.get` with no default
returns `None`, which is falsy). -/
def pyTruthyOpt : Option Json → Bool
  | some j => pyTruthy j
  | none => false

/-- Iterating a decoded value with `for x in v` when the code path expects
a JSON list: the list's entries.  Non-list values give no entries (the
guarded call sites restrict to lists or falsy values). -/
def Json.toListD : Json → List Json
  | .arr xs => xs
  | _ => []

/-! ## Escape-Sequence Normalizer (`tmux_client.strip_ansi`)

The source compiles the regex

  `\x1b(?:\[[0-9;?]*[A-Za-z]|\][^\x07]*\x07|[PX^_][^\x1b]*\x1b\\|[NO].|[=>])`

and removes every non-overlapping, leftmost match (`re.sub` with the empty
replacement).  Each alternative begins with a distinct character after the
escape introducer, and each quantified part cannot backtrack into its
terminator, so matching at a given position is deterministic; the
functions below embed each alternative directly. -/

/-- The CSI alternative `\[[0-9;?]*[A-Za-z]` after `ESC [` has been read:
skip parameter characters `[0-9;?]`, then require one ASCII letter.
Returns the remaining characters after the match, or `none`. -/
def csiMatch : List Char → Option (List Char)
  | [] => none
  | c :: rest =>
    if c.isDigit || c == ';' || c == '?' then csiMatch rest
    else if c.isAlpha then some rest
    else none

/-- The OSC alternative `\][^\x07]*\x07` after `ESC ]` has been read:
consume up to and including the first BEL. -/
def oscMatch : List Char → Option (List Char)
  | [] => none
  | c :: rest => if c == '\x07' then some rest else oscMatch rest

/-- The DCS/SOS/PM/APC alternative `[PX^_][^\x1b]*\x1b\\` after the
introducer has been read: consume up to the first ESC, which must be
followed by a backslash. -/
def dcsMatch : List Char → Option (List Char)
  | [] => none
  | [_] => none
  | c :: d :: rest =>
    if c == '\x1b' then (if d == '\\' then some rest else none)
    else dcsMatch (d :: rest)

/-- The SS2/SS3 alternative `[NO].` after the introducer has been read:
one character that is not a newline (`.` without DOTALL). -/
def ssMatch : List Char → Option (List Char)
  | [] => none
  | d :: r2 => if d == '\n' then none else some r2

/-- Try to match one escape sequence given the characters following an ESC
byte; `some r` returns the characters after the matched sequence. -/
def matchEsc : List Char → Option (List Char)
  | [] => none
  | c :: rest =>
    if c == '[' then csiMatch rest
    else if c == ']' then oscMatch rest
    else if c == 'P' || c == 'X' || c == '^' || c == '_' then dcsMatch rest
    else if c == 'N' || c == 'O' then ssMatch rest
    else if c == '=' || c == '>' then some rest
    else none

/-- One left-to-right `re.sub` pass: at each ESC try `matchEsc`; on a match
drop the matched sequence and continue after it, otherwise keep the
character and move on.  The fuel argument (instantiated with the input
length, which always suffices since every step consumes at least one
character) keeps the recursion structural. -/
def stripAux : Nat → List Char → List Char
  | 0, l => l
  | _ + 1, [] => []
  | fuel + 1, c :: rest =>
    if c == '\x1b' then
      match matchEsc rest with
      | some r => stripAux fuel r
      | none => c :: stripAux fuel rest
    else c :: stripAux fuel rest

/-- `strip_ansi`: remove every ANSI escape sequence matched by
`ANSI_ESCAPE_PATTERN`, leaving all other characters in order. -/
def strip_ansi (s : String) : String :=
  ⟨stripAux s.data.length s.data⟩

/-- No position in the character list starts a removable escape sequence:
every ESC byte is followed by a non-matching pattern. -/
def noEscMatch : List Char → Bool
  | [] => true
  | c :: rest =>
    (if c == '\x1b' then (matchEsc rest).isNone else true) && noEscMatch rest

/-- The input contains no ESC byte at all. -/
def escFree (l : List Char) : Bool :=
  l.all fun c => !(c == '\x1b')

/-! ## Event-Stream Parser and Session Protocol Driver
(`claude_client.ClaudeStreamSession`)

`_read_stream` reads the process's stdout one line at a time; a line
either decodes (`json.loads` succeeds, and for protocol lines the result
is a JSON object, i.e. a Python dict) or raises `JSONDecodeError` and is
skipped.  `StreamLine` models exactly that outcome of decoding one line. -/

/-- One line read from the process's stdout: `ok fields` is a line that
decodes to a JSON object with the given fields, `bad` is a line on which
`json.loads` raises `JSONDecodeError`. -/
inductive StreamLine where
  | ok : List (String × Json) → StreamLine
  | bad : StreamLine

/-- `PermissionRequest` dataclass.  The annotations in the source
(`str`, `str`, `dict`) are not enforced at runtime; the stored values are
whatever `denial.get(...)` returned, so the fields hold decoded values. -/
structure PermissionRequest where
  tool_name : Json
  tool_use_id : Json
  tool_input : Json

/-- `ClaudeStreamMessage` dataclass, with the source's field defaults.
As with `PermissionRequest`, annotations are unchecked, so `type`,
`subtype` and `result` hold decoded values. -/
structure ClaudeStreamMessage where
  type : Json
  subtype : Option Json := none
  data : Option Json := none
  permission_request : Option PermissionRequest := none
  result : Option Json := none
  is_complete : Bool := false

/-- `data.get("type", "") == "system" and data.get("subtype") == "init"`:
the session-id capture condition at the top of the per-line handling. -/
def isInitLine (fields : List (String × Json)) : Bool :=
  (dictGetD fields "type" (Json.str "")).isStr "system"
    && (match List.lookup "subtype" fields with
        | some j => j.isStr "init"
        | none => false)

/-- `data.get("type", "") == "result"`: the terminal-line condition. -/
def isResultLine (fields : List (String × Json)) : Bool :=
  (dictGetD fields "type" (Json.str "")).isStr "result"

/-- Case-insensitive substring test, `needle in haystack.lower()`. -/
def hasInfix (needle : List Char) : List Char → Bool
  | [] => needle.isEmpty
  | c :: rest => needle.isPrefixOf (c :: rest) || hasInfix needle rest

mutual

/-- Python `repr` of a decoded JSON value inside a container (`None`,
`True`/`False`, decimal integers, quoted strings, bracketed lists,
braced dicts).  String escaping inside quotes is not reproduced; it
feeds only the substring test below, which it cannot affect for the
word being searched. -/
def pyRepr : Json → String
  | .null => "None"
  | .bool true => "True"
  | .bool false => "False"
  | .num n => toString n
  | .str s => "'" ++ s ++ "'"
  | .arr xs => "[" ++ pyReprList xs ++ "]"
  | .obj fs => "\x7b" ++ pyReprObj fs ++ "\x7d"

/-- Comma-separated `repr`s of a list's entries. -/
def pyReprList : List Json → String
  | [] => ""
  | [x] => pyRepr x
  | x :: y :: rest => pyRepr x ++ ", " ++ pyReprList (y :: rest)

/-- Comma-separated `'key': repr(value)` pairs of a dict. -/
def pyReprObj : List (String × Json) → String
  | [] => ""
  | [(k, v)] => "'" ++ k ++ "': " ++ pyRepr v
  | (k, v) :: kv :: rest => "'" ++ k ++ "': " ++ pyRepr v ++ ", " ++ pyReprObj (kv :: rest)

end

/-- Python `str` of a decoded value: the string itself for strings,
`repr` otherwise. -/
def pyStr : Json → String
  | .str s => s
  | j => pyRepr j

/-- The permission-denial scan for a `type == "user"` line: walk
`data["message"]["content"]` when it is a list, and for each dict entry
that is an error `tool_result` whose content mentions "permission"
(case-insensitively), yield one `permission_denied` message carrying the
raw line. -/
def permissionDeniedMessages (fields : List (String × Json)) : List ClaudeStreamMessage :=
  match (dictGetD fields "message" (Json.obj [])).objGetD "content" (Json.arr []) with
  | Json.arr items =>
    (items.filter fun item =>
        item.isObj
          && (match item.objLookup "type" with
              | some j => j.isStr "tool_result"
              | none => false)
          && pyTruthyOpt (item.objLookup "is_error")
          && hasInfix "permission".data
              (pyStr (item.objGetD "content" (Json.str ""))).toLower.data
      ).map fun _ => { type := Json.str "permission_denied", data := some (Json.obj fields) }
  | _ => []

/-- The events yielded for a `type == "result"` line: one
`permission_request` message per entry of a truthy `permission_denials`
list (fields read with defaults), then the single terminal `result`
message carrying `data.get("result", "")` with `is_complete = True`. -/
def resultMessages (fields : List (String × Json)) : List ClaudeStreamMessage :=
  let pd := dictGetD fields "permission_denials" (Json.arr [])
  (if pyTruthy pd then
      pd.toListD.map fun denial =>
        { type := Json.str "permission_request",
          permission_request := some
            { tool_name := denial.objGetD "tool_name" (Json.str ""),
              tool_use_id := denial.objGetD "tool_use_id" (Json.str ""),
              tool_input := denial.objGetD "tool_input" (Json.obj []) },
          data := some (Json.obj fields) }
    else [])
  ++ [{ type := Json.str "result",
        result := some (dictGetD fields "result" (Json.str "")),
        is_complete := true,
        data := some (Json.obj fields) }]

/-- The trailing transparency yield for every non-result line:
`ClaudeStreamMessage(type=msg_type, subtype=msg_subtype, data=data)`. -/
def otherMessage (fields : List (String × Json)) : ClaudeStreamMessage :=
  { type := dictGetD fields "type" (Json.str ""),
    subtype := List.lookup "subtype" fields,
    data := some (Json.obj fields) }

/-- All events yielded for one decoded non-result line: the
permission-denial scan when `type == "user"`, then the transparency
message. -/
def nonResultEvents (fields : List (String × Json)) : List ClaudeStreamMessage :=
  (if (dictGetD fields "type" (Json.str "")).isStr "user" then
      permissionDeniedMessages fields
    else [])
  ++ [otherMessage fields]

/-- `_read_stream`'s line loop over the decoded lines, threading the
`self._session_id` field: undecodable lines are skipped; a system-init
line assigns `_session_id = data.get("session_id")`; a result line yields
its messages and breaks, leaving later lines unread; every other line
yields its events and the loop continues.  Returns the yielded messages
and the final `_session_id`. -/
def readStream : List StreamLine → Option Json → List ClaudeStreamMessage × Option Json
  | [], sid => ([], sid)
  | StreamLine.bad :: rest, sid => readStream rest sid
  | StreamLine.ok fields :: rest, sid =>
    let sid' := if isInitLine fields then List.lookup "session_id" fields else sid
    if isResultLine fields then (resultMessages fields, sid')
    else
      let p := readStream rest sid'
      (nonResultEvents fields ++ p.1, p.2)

/-- A result line never raises: its `permission_denials` value, when
present and truthy, must be a list of dicts (otherwise the source's
`for denial in permission_denials: denial.get(...)` raises). -/
def pdWF (fields : List (String × Json)) : Bool :=
  match List.lookup "permission_denials" fields with
  | none => true
  | some (Json.arr xs) => xs.all Json.isObj
  | some v => !pyTruthy v

/-- A decoded line never raises in `_read_stream`: a `user` line's
`message` value, when present, must be a dict (the source calls
`message.get`), and a `result` line must satisfy `pdWF`. -/
def lineWF : StreamLine → Bool
  | StreamLine.bad => true
  | StreamLine.ok fields =>
    (if (dictGetD fields "type" (Json.str "")).isStr "user" then
        match List.lookup "message" fields with
        | some j => j.isObj
        | none => true
      else true)
    && (if isResultLine fields then pdWF fields else true)

/-- Whether the line list contains a terminal result line. -/
def hasTerminal : List StreamLine → Bool
  | [] => false
  | StreamLine.bad :: rest => hasTerminal rest
  | StreamLine.ok fields :: rest => isResultLine fields || hasTerminal rest

/-- Outcome of `asyncio.create_subprocess_exec("claude", ...)` in
`start`: success, `FileNotFoundError` (executable absent), or any other
launch exception. -/
inductive LaunchResult where
  | ok : LaunchResult
  | fileNotFound : LaunchResult
  | otherFailure : LaunchResult

/-- What the external process does on its stdout: the decoded lines it
emits, and then whether it closes the stream (`readline` returns empty)
or keeps it open with no further data (so the un-timed
`await readline()` never completes). -/
structure ProcOutput where
  lines : List StreamLine
  closes : Bool

/-- Observable outcome of one `start(...)` turn.  `events` is the
generator completing after yielding the listed messages; `claudeError`
is a raised `ClaudeError` with the given message; `rawError` is a launch
exception other than `FileNotFoundError` propagating uncaught; `hangs`
is the driver blocked forever in `readline` after yielding the listed
messages — `start` applies no bound to the read (the `timeout` argument
is used only in the message of a handler for an `asyncio.TimeoutError`
that no operation in the method can raise), so a stream that stays open
without a terminal line is never escaped. -/
inductive StartOutcome where
  | events : List ClaudeStreamMessage → StartOutcome
  | claudeError : String → StartOutcome
  | rawError : StartOutcome
  | hangs : List ClaudeStreamMessage → StartOutcome

/-- `ClaudeStreamSession.start`: launch (FileNotFoundError becomes
`ClaudeError("Claude Code is not installed")`, other launch failures
propagate raw), then re-yield `_read_stream`'s messages, breaking once a
message has `is_complete`.  With no terminal line, the iteration ends
when the stream closes, or blocks forever when it does not.  The
`timeout` parameter does not influence any of this. -/
def startRun (launch : LaunchResult) (po : ProcOutput) : StartOutcome :=
  match launch with
  | .fileNotFound => .claudeError "Claude Code is not installed"
  | .otherFailure => .rawError
  | .ok =>
    if hasTerminal po.lines || po.closes then .events (readStream po.lines none).1
    else .hangs (readStream po.lines none).1

/-! ## Print-mode client (`ClaudeClient.run_claude_print`) -/

/-- Outcome of `subprocess.run(cmd, capture_output=True, text=True,
timeout=timeout)`: normal completion with an exit code and captured
streams, `FileNotFoundError`, `subprocess.TimeoutExpired`, or another
`subprocess.SubprocessError`. -/
inductive SubprocessResult where
  | completed : Int → String → String → SubprocessResult
  | fileNotFound : SubprocessResult
  | timedOut : SubprocessResult
  | subprocessError : String → SubprocessResult

/-- Python's whitespace set for `str.strip` / `str.rstrip`. -/
def pyWs (c : Char) : Bool :=
  c == ' ' || c == '\t' || c == '\n' || c == '\r' || c == '\x0b' || c == '\x0c'

/-- Python `str.rstrip()`. -/
def pyRstrip (s : String) : String :=
  ⟨(s.data.reverse.dropWhile pyWs).reverse⟩

/-- Python `str.strip()`. -/
def pyStrip (s : String) : String :=
  ⟨((s.data.dropWhile pyWs).reverse.dropWhile pyWs).reverse⟩

/-- `ClaudeClient.run_claude_print`, as a function of the subprocess
outcome: exit code 0 returns `stdout.rstrip()`; a non-zero exit raises
`ClaudeError("Claude command failed: ...")` with the stripped stderr (or
"command failed" when empty); `FileNotFoundError` raises
`ClaudeError("Claude Code is not installed")`; `TimeoutExpired` raises
the timed-out message naming the duration; any other `SubprocessError`
raises the execution-failure message.  `Except.error` carries the
`ClaudeError` message. -/
def run_claude_print (timeout : Nat) (r : SubprocessResult) : Except String String :=
  match r with
  | .completed rc out err =>
    if rc == 0 then .ok (pyRstrip out)
    else
      .error ("Claude command failed: " ++
        (if (pyStrip err).isEmpty then "command failed" else pyStrip err))
  | .fileNotFound => .error "Claude Code is not installed"
  | .timedOut =>
    .error ("Claude command timed out after " ++ toString timeout ++ " seconds")
  | .subprocessError m => .error ("Failed to execute claude command: " ++ m)

/-- The argument list built by `ClaudeStreamSession.start`: the
stream-json base command, plus `--continue` when `session_mode` is
exactly "continue", plus `--resume <id>` when it starts with "resume:",
and nothing extra otherwise. -/
def startCmd (prompt session_mode : String) : List String :=
  let cmd := ["claude", "-p", prompt, "--input-format", "stream-json",
    "--output-format", "stream-json", "--verbose", "--dangerously-skip-permissions"]
  if session_mode == "continue" then cmd ++ ["--continue"]
  else if "resume:".isPrefixOf session_mode then
    cmd ++ ["--resume", session_mode.drop 7]
  else cmd

/-- The argument list built by `ClaudeClient.run_claude_print`, with the
same session-mode handling over the print-mode base command. -/
def printCmd (prompt session_mode : String) : List String :=
  let cmd := ["claude", "-p", prompt, "--dangerously-skip-permissions"]
  if session_mode == "continue" then cmd ++ ["--continue"]
  else if "resume:".isPrefixOf session_mode then
    cmd ++ ["--resume", session_mode.drop 7]
  else cmd

/-! ## Output Diff Engine -/

/-- Strip leading newline characters (the spec's "leading newlines
trimmed"). -/
def trimLeadingNewlines (s : String) : String :=
  ⟨s.data.dropWhile fun c => c == '\n'⟩

/-- First index at which `block` occurs as a contiguous prefix of a
suffix of the line list, scanning left to right. -/
def findBlockFrom (block : List String) : List String → Option Nat
  | [] => if block.isEmpty then some 0 else none
  | l :: rest =>
    if block.isPrefixOf (l :: rest) then some 0
    else (findBlockFrom block rest).map (· + 1)

/-- Try suffixes of `lb` from length `k` down to 1: the first (longest)
suffix of `before`'s lines found as a contiguous block inside `after`'s
lines wins, and the lines of `after` following that block are returned. -/
def alignAux (lb la : List String) : Nat → Option (List String)
  | 0 => none
  | k + 1 =>
    match findBlockFrom (lb.drop (lb.length - (k + 1))) la with
    | some i => some (la.drop (i + (k + 1)))
    | none => alignAux lb la k

/-- Modelled from the spec: the Output Diff Engine (spec section 4.2) has
no implementation under the repository's sources — only the
specification describes it.  `diff before after` computes the new text
between two snapshots: an empty `before` makes all of `after` new; when
`after` extends `before` verbatim the remainder is returned with leading
newlines trimmed; otherwise the longest suffix of `before`'s lines found
contiguously in `after`'s lines marks the boundary; failing that, the
first occurrence of `before`'s last line does; failing even that, all of
`after` is new. -/
def diff (before after : String) : String :=
  if before = "" then after
  else if before.isPrefixOf after then trimLeadingNewlines (after.drop before.length)
  else
    let lb := before.splitOn "\n"
    let la := after.splitOn "\n"
    match alignAux lb la lb.length with
    | some restLines => String.intercalate "\n" restLines
    | none =>
      match lb.getLast? with
      | some lastLine =>
        match findBlockFrom [lastLine] la with
        | some i => String.intercalate "\n" (la.drop (i + 1))
        | none => after
      | none => after

/-! ## Lemmas about the normalizer -/

/-- A successful CSI match consumes at least the final letter. -/
lemma csiMatch_length : ∀ (l r : List Char), csiMatch l = some r → r.length ≤ l.length := by
  intro l
  induction l with
  | nil => intro r h; simp [csiMatch] at h
  | cons c rest ih =>
    intro r h
    simp only [csiMatch] at h
    split at h
    · have := ih r h
      simp only [List.length_cons]
      omega
    · split at h
      · injection h with h'
        subst h'
        simp
      · exact absurd h (by simp)

/-- A successful OSC match consumes at least the BEL. -/
lemma oscMatch_length : ∀ (l r : List Char), oscMatch l = some r → r.length ≤ l.length := by
  intro l
  induction l with
  | nil => intro r h; simp [oscMatch] at h
  | cons c rest ih =>
    intro r h
    simp only [oscMatch] at h
    split at h
    · injection h with h'
      subst h'
      simp
    · have := ih r h
      simp only [List.length_cons]
      omega

/-- A successful DCS match consumes at least the terminator. -/
lemma dcsMatch_length : ∀ (l r : List Char), dcsMatch l = some r → r.length ≤ l.length := by
  intro l
  induction l with
  | nil => intro r h; simp [dcsMatch] at h
  | cons c rest ih =>
    intro r h
    cases rest with
    | nil => simp [dcsMatch] at h
    | cons d r2 =>
      simp only [dcsMatch] at h
      split at h
      · split at h
        · injection h with h'
          subst h'
          simp only [List.length_cons]
          omega
        · exact absurd h (by simp)
      · have := ih r h
        simp only [List.length_cons] at *
        omega

/-- A successful SS2/SS3 match consumes exactly one character. -/
lemma ssMatch_length : ∀ (l r : List Char), ssMatch l = some r → r.length ≤ l.length := by
  intro l r h
  cases l with
  | nil => simp [ssMatch] at h
  | cons d r2 =>
    simp only [ssMatch] at h
    split at h
    · exact absurd h (by simp)
    · injection h with h'
      subst h'
      simp

/-- A successful escape-sequence match consumes at least one character. -/
lemma matchEsc_length : ∀ (l r : List Char), matchEsc l = some r → r.length ≤ l.length := by
  intro l r h
  match l, h with
  | c :: rest, h =>
    simp only [matchEsc] at h
    split at h
    · have := csiMatch_length rest r h
      simp only [List.length_cons]
      omega
    · split at h
      · have := oscMatch_length rest r h
        simp only [List.length_cons]
        omega
      · split at h
        · have := dcsMatch_length rest r h
          simp only [List.length_cons]
          omega
        · split at h
          · have := ssMatch_length rest r h
            simp only [List.length_cons]
            omega
          · split at h
            · injection h with h'
              subst h'
              simp only [List.length_cons]
              omega
            · exact absurd h (by simp)

/-- One stripping pass never lengthens the text. -/
lemma stripAux_length : ∀ (fuel : Nat) (l : List Char), (stripAux fuel l).length ≤ l.length := by
  intro fuel
  induction fuel with
  | zero => intro l; simp [stripAux]
  | succ n ih =>
    intro l
    match l with
    | [] => simp [stripAux]
    | c :: rest =>
      simp only [stripAux]
      split
      · cases hm : matchEsc rest with
        | some r =>
          have h1 := matchEsc_length rest r hm
          have h2 := ih r
          simp only [List.length_cons]
          omega
        | none =>
          have := ih rest
          simp only [List.length_cons]
          omega
      · have := ih rest
        simp only [List.length_cons]
        omega

/-- When no position starts a matchable escape sequence, a stripping pass
is the identity. -/
lemma stripAux_noEscMatch : ∀ (fuel : Nat) (l : List Char),
    noEscMatch l = true → stripAux fuel l = l := by
  intro fuel
  induction fuel with
  | zero => intro l _; simp [stripAux]
  | succ n ih =>
    intro l h
    match l with
    | [] => simp [stripAux]
    | c :: rest =>
      simp only [noEscMatch, Bool.and_eq_true] at h
      obtain ⟨h1, h2⟩ := h
      by_cases hc : (c == '\x1b') = true
      · rw [if_pos hc] at h1
        have hnone : matchEsc rest = none := Option.isNone_iff_eq_none.mp h1
        simp [stripAux, hc, hnone, ih rest h2]
      · simp only [stripAux]
        rw [if_neg hc, ih rest h2]

/-- Text with no ESC byte has no matchable position. -/
lemma escFree_noEscMatch : ∀ l : List Char, escFree l = true → noEscMatch l = true := by
  intro l
  induction l with
  | nil => intro _; rfl
  | cons c rest ih =>
    intro h
    simp only [escFree, List.all_cons, Bool.and_eq_true] at h
    obtain ⟨h1, h2⟩ := h
    simp only [noEscMatch, Bool.and_eq_true]
    refine ⟨?_, ih (by simpa [escFree] using h2)⟩
    rw [if_neg (by simpa using h1)]

/-- C5 counterexample: `strip_ansi` is not idempotent.  On the input
ESC ESC `[m[m`, the first pass removes the inner `ESC [ m` sequence and
thereby juxtaposes the leading ESC with the remaining `[m`, so a second
pass removes that newly formed sequence as well. -/
theorem c5_strip_ansi_not_idempotent_counterexample :
    strip_ansi (strip_ansi "\x1b\x1b[m[m") ≠ strip_ansi "\x1b\x1b[m[m" := by
  decide

/-- C5 (amended): `strip_ansi` is idempotent on every input whose
stripped output contains no ESC byte; in general a first pass can bring
an ESC next to text forming a new escape sequence, which a second pass
then also removes. -/
theorem c5_strip_ansi_idempotent_on_clean_output (s : String)
    (h : escFree (strip_ansi s).data = true) :
    strip_ansi (strip_ansi s) = strip_ansi s := by
  show String.mk (stripAux (strip_ansi s).data.length (strip_ansi s).data) = strip_ansi s
  rw [stripAux_noEscMatch _ _ (escFree_noEscMatch _ h)]

/-- Witness for the amended C5 at a concrete input that does contain
escape sequences. -/
theorem c5_strip_ansi_idempotent_on_clean_output_witness :
    escFree (strip_ansi "\x1b[32mok\x1b[0m").data = true
      ∧ strip_ansi (strip_ansi "\x1b[32mok\x1b[0m") = strip_ansi "\x1b[32mok\x1b[0m" :=
  ⟨by decide, c5_strip_ansi_idempotent_on_clean_output _ (by decide)⟩

/-- C6: `strip_ansi` never lengthens its input; it is the identity on
text with no ESC byte; and more generally it leaves untouched any text
in which every ESC is followed by a non-matching pattern. -/
theorem c6_strip_ansi_shrinks_and_preserves (s : String) :
    (strip_ansi s).length ≤ s.length
      ∧ (escFree s.data = true → strip_ansi s = s)
      ∧ (noEscMatch s.data = true → strip_ansi s = s) := by
  refine ⟨?_, ?_, ?_⟩
  · show (String.mk (stripAux s.data.length s.data)).length ≤ s.length
    rw [String.length_mk]
    exact stripAux_length s.data.length s.data
  · intro h
    show String.mk (stripAux s.data.length s.data) = s
    rw [stripAux_noEscMatch _ _ (escFree_noEscMatch _ h)]
  · intro h
    show String.mk (stripAux s.data.length s.data) = s
    rw [stripAux_noEscMatch _ _ h]

/-- Witness for C6 at concrete inputs: an escape-free string, and a
string whose ESC is followed by a non-matching pattern. -/
theorem c6_strip_ansi_shrinks_and_preserves_witness :
    ((strip_ansi "hello").length ≤ "hello".length
        ∧ escFree "hello".data = true ∧ strip_ansi "hello" = "hello")
      ∧ (noEscMatch "ab\x1bqcd".data = true ∧ strip_ansi "ab\x1bqcd" = "ab\x1bqcd") :=
  ⟨⟨(c6_strip_ansi_shrinks_and_preserves "hello").1, by decide,
      (c6_strip_ansi_shrinks_and_preserves "hello").2.1 (by decide)⟩,
    ⟨by decide, (c6_strip_ansi_shrinks_and_preserves "ab\x1bqcd").2.2 (by decide)⟩⟩

/-! ## Lemmas about the parser and driver -/

/-- A falsy decoded value yields no iteration entries. -/
lemma falsy_toListD (v : Json) (h : pyTruthy v = false) : v.toListD = [] := by
  cases v with
  | arr xs =>
    simp only [pyTruthy, Bool.not_eq_false'] at h
    simp [Json.toListD, List.isEmpty_iff.mp h]
  | null => rfl
  | bool b => rfl
  | num n => rfl
  | str s => rfl
  | obj fs => rfl

/-- A system-init line is not a result line (its `type` is "system"). -/
lemma init_not_result (fields : List (String × Json)) (h : isInitLine fields = true) :
    isResultLine fields = false := by
  simp only [isInitLine, Bool.and_eq_true] at h
  obtain ⟨h1, _⟩ := h
  simp only [isResultLine]
  cases hv : dictGetD fields "type" (Json.str "") with
  | str t =>
    rw [hv] at h1
    simp only [Json.isStr] at h1 ⊢
    have ht : t = "system" := by simpa using h1
    subst ht
    decide
  | null => simp [Json.isStr]
  | bool b => simp [Json.isStr]
  | num n => simp [Json.isStr]
  | arr xs => simp [Json.isStr]
  | obj fs => simp [Json.isStr]

/-- Messages yielded for a non-result line all have `is_complete = False`. -/
lemma nonResultEvents_not_complete (fields : List (String × Json)) :
    ∀ m ∈ nonResultEvents fields, m.is_complete = false := by
  intro m hm
  simp only [nonResultEvents, List.mem_append] at hm
  rcases hm with h | h
  · split at h
    · simp only [permissionDeniedMessages] at h
      split at h
      · rcases List.mem_map.mp h with ⟨_, _, hme⟩
        rw [← hme]
      · exact absurd h (List.not_mem_nil m)
    · exact absurd h (List.not_mem_nil m)
  · rcases List.mem_singleton.mp h with rfl
    rfl

/-- With no terminal line, every message yielded by the read loop has
`is_complete = False`. -/
lemma readStream_not_complete : ∀ (lines : List StreamLine) (sid : Option Json),
    hasTerminal lines = false →
    ∀ m ∈ (readStream lines sid).1, m.is_complete = false := by
  intro lines
  induction lines with
  | nil => intro sid _ m hm; simp [readStream] at hm
  | cons l rest ih =>
    intro sid hterm m hm
    cases l with
    | bad =>
      exact ih sid (by simpa [hasTerminal] using hterm) m (by simpa [readStream] using hm)
    | ok fields =>
      simp only [hasTerminal, Bool.or_eq_false_iff] at hterm
      obtain ⟨hres, hrest⟩ := hterm
      simp only [readStream, hres, Bool.false_eq_true, if_false, List.mem_append] at hm
      rcases hm with h | h
      · exact nonResultEvents_not_complete fields m h
      · exact ih _ hrest m h

/-- C1: a decoded line whose `type` is "result" (with a well-formed
`permission_denials` value, as any other makes the source raise) makes
the read loop emit one `permission_request` message per entry of the
`permission_denials` list, in order, with `tool_name` / `tool_use_id` /
`tool_input` read from that entry and missing fields defaulting to the
empty string or empty mapping, followed by exactly one terminal `result`
message carrying the line's `result` text, and nothing at all from any
later line. -/
theorem c1_result_line_events (fields : List (String × Json)) (rest : List StreamLine)
    (sid : Option Json)
    (hres : isResultLine fields = true) (hpd : pdWF fields = true) :
    readStream (StreamLine.ok fields :: rest) sid
      = ((dictGetD fields "permission_denials" (Json.arr [])).toListD.map (fun denial =>
            { type := Json.str "permission_request",
              permission_request := some
                { tool_name := denial.objGetD "tool_name" (Json.str ""),
                  tool_use_id := denial.objGetD "tool_use_id" (Json.str ""),
                  tool_input := denial.objGetD "tool_input" (Json.obj []) },
              data := some (Json.obj fields) })
          ++ [{ type := Json.str "result",
                result := some (dictGetD fields "result" (Json.str "")),
                is_complete := true,
                data := some (Json.obj fields) }],
        if isInitLine fields then List.lookup "session_id" fields else sid) := by
  simp only [readStream, hres, if_true]
  refine congrArg (fun l => (l, _)) ?_
  simp only [resultMessages]
  by_cases ht : pyTruthy (dictGetD fields "permission_denials" (Json.arr [])) = true
  · rw [if_pos ht]
  · rw [if_neg ht, falsy_toListD _ (Bool.not_eq_true _ ▸ Bool.of_not_eq_true ht)]
    simp

/-- Witness for C1 at the spec's own example line
`{"type":"result","result":"x","permission_denials":[{"tool_name":"Bash",
"tool_use_id":"abc","tool_input":{"command":"ls"}}]}`, followed by a
further line that must yield nothing. -/
theorem c1_result_line_events_witness :
    isResultLine [("type", Json.str "result"), ("result", Json.str "x"),
        ("permission_denials", Json.arr [Json.obj [("tool_name", Json.str "Bash"),
          ("tool_use_id", Json.str "abc"),
          ("tool_input", Json.obj [("command", Json.str "ls")])]])] = true
      ∧ pdWF [("type", Json.str "result"), ("result", Json.str "x"),
          ("permission_denials", Json.arr [Json.obj [("tool_name", Json.str "Bash"),
            ("tool_use_id", Json.str "abc"),
            ("tool_input", Json.obj [("command", Json.str "ls")])]])] = true
      ∧ readStream (StreamLine.ok [("type", Json.str "result"), ("result", Json.str "x"),
            ("permission_denials", Json.arr [Json.obj [("tool_name", Json.str "Bash"),
              ("tool_use_id", Json.str "abc"),
              ("tool_input", Json.obj [("command", Json.str "ls")])]])]
            :: [StreamLine.ok [("type", Json.str "assistant")]]) none
        = ((Json.arr [Json.obj [("tool_name", Json.str "Bash"),
              ("tool_use_id", Json.str "abc"),
              ("tool_input", Json.obj [("command", Json.str "ls")])]]).toListD.map (fun denial =>
              { type := Json.str "permission_request",
                permission_request := some
                  { tool_name := denial.objGetD "tool_name" (Json.str ""),
                    tool_use_id := denial.objGetD "tool_use_id" (Json.str ""),
                    tool_input := denial.objGetD "tool_input" (Json.obj []) },
                data := some (Json.obj [("type", Json.str "result"), ("result", Json.str "x"),
                  ("permission_denials", Json.arr [Json.obj [("tool_name", Json.str "Bash"),
                    ("tool_use_id", Json.str "abc"),
                    ("tool_input", Json.obj [("command", Json.str "ls")])]])]) })
            ++ [{ type := Json.str "result", result := some (Json.str "x"),
                  is_complete := true,
                  data := some (Json.obj [("type", Json.str "result"), ("result", Json.str "x"),
                    ("permission_denials", Json.arr [Json.obj [("tool_name", Json.str "Bash"),
                      ("tool_use_id", Json.str "abc"),
                      ("tool_input", Json.obj [("command", Json.str "ls")])]])]) }],
            none) := by
  refine ⟨by decide, by decide, ?_⟩
  have h := c1_result_line_events
    [("type", Json.str "result"), ("result", Json.str "x"),
      ("permission_denials", Json.arr [Json.obj [("tool_name", Json.str "Bash"),
        ("tool_use_id", Json.str "abc"),
        ("tool_input", Json.obj [("command", Json.str "ls")])]])]
    [StreamLine.ok [("type", Json.str "assistant")]] none (by decide) (by decide)
  exact h

/-- C4 counterexample: the session identifier does not latch.  After a
stream with two system-init lines carrying session ids "sid-a" then
"sid-b", the stored `_session_id` is "sid-b" — the second init line
overwrote the first's value. -/
theorem c4_session_id_latch_counterexample :
    (readStream
        [StreamLine.ok [("type", Json.str "system"), ("subtype", Json.str "init"),
            ("session_id", Json.str "sid-a")],
          StreamLine.ok [("type", Json.str "system"), ("subtype", Json.str "init"),
            ("session_id", Json.str "sid-b")]]
        none).2 = some (Json.str "sid-b")
      ∧ some (Json.str "sid-b") ≠ some (Json.str "sid-a") := by
  refine ⟨rfl, ?_⟩
  intro h
  injection h with h1
  injection h1 with h2
  exact absurd h2 (by decide)

/-- C4 (amended): every line with type "system" and subtype "init" sets
the stored session identifier to that line's own `session_id` field,
discarding whatever was stored before — it re-captures on each
occurrence rather than latching once. -/
theorem c4_session_id_recaptured (fields : List (String × Json))
    (rest : List StreamLine) (sid : Option Json)
    (hinit : isInitLine fields = true) :
    (readStream (StreamLine.ok fields :: rest) sid).2
      = (readStream rest (List.lookup "session_id" fields)).2 := by
  simp only [readStream, hinit, if_true, init_not_result fields hinit,
    Bool.false_eq_true, if_false]

/-- Witness for the amended C4: a system-init line replaces an already
stored identifier with its own. -/
theorem c4_session_id_recaptured_witness :
    isInitLine [("type", Json.str "system"), ("subtype", Json.str "init"),
        ("session_id", Json.str "sid-new")] = true
      ∧ (readStream
            [StreamLine.ok [("type", Json.str "system"), ("subtype", Json.str "init"),
              ("session_id", Json.str "sid-new")]]
            (some (Json.str "sid-old"))).2
        = (readStream [] (List.lookup "session_id"
            [("type", Json.str "system"), ("subtype", Json.str "init"),
              ("session_id", Json.str "sid-new")])).2 :=
  ⟨by decide,
    c4_session_id_recaptured
      [("type", Json.str "system"), ("subtype", Json.str "init"),
        ("session_id", Json.str "sid-new")]
      [] (some (Json.str "sid-old")) (by decide)⟩

/-- C7: a line on which JSON decoding fails contributes no events, raises
nothing, and leaves the processing of all later lines — and the whole
turn's outcome — unchanged. -/
theorem c7_undecodable_line_skipped (rest : List StreamLine) (sid : Option Json)
    (closes : Bool) :
    readStream (StreamLine.bad :: rest) sid = readStream rest sid
      ∧ startRun LaunchResult.ok ⟨StreamLine.bad :: rest, closes⟩
        = startRun LaunchResult.ok ⟨rest, closes⟩ :=
  ⟨rfl, rfl⟩

/-- C2: the `timeout` argument of `start` is never enforced.  A process
that emits one assistant line, no terminal result line, and keeps its
stdout open leaves the driver blocked forever inside
`await readline()`: no `asyncio.wait_for` wraps the read, so the
handler that would raise the "timed out" `ClaudeError` is unreachable,
and the turn's outcome does not depend on the timeout value at all. -/
theorem c2_stream_timeout_not_enforced :
    startRun LaunchResult.ok ⟨[StreamLine.ok [("type", Json.str "assistant")]], false⟩
      = StartOutcome.hangs
          [{ type := Json.str "assistant", subtype := none,
             data := some (Json.obj [("type", Json.str "assistant")]) }] := rfl

/-- C3 counterexample: when the output stream closes before any terminal
result event, `start` ends the event sequence normally — the outcome is
a plain `events` completion whose messages carry no terminal marker, not
a raised error of any kind. -/
theorem c3_eof_without_terminal_counterexample :
    startRun LaunchResult.ok ⟨[StreamLine.ok [("type", Json.str "assistant")]], true⟩
      = StartOutcome.events
          [{ type := Json.str "assistant", subtype := none,
             data := some (Json.obj [("type", Json.str "assistant")]),
             is_complete := false }] := rfl

/-- C3 (amended): when the process's stdout closes before any terminal
result event, the driver ends the event sequence without raising any
error: the caller receives exactly the events seen so far, none of which
is marked complete — an empty or partial turn is indistinguishable from
success.  (The well-formedness hypothesis excludes lines on which the
source itself would raise while parsing.) -/
theorem c3_eof_ends_without_error (lines : List StreamLine)
    (hterm : hasTerminal lines = false) (hwf : lines.all lineWF = true) :
    startRun LaunchResult.ok ⟨lines, true⟩ = StartOutcome.events (readStream lines none).1
      ∧ ∀ m ∈ (readStream lines none).1, m.is_complete = false := by
  refine ⟨?_, readStream_not_complete lines none hterm⟩
  simp [startRun]

/-- Witness for the amended C3 at a concrete stream: one assistant line,
then the stream closes. -/
theorem c3_eof_ends_without_error_witness :
    hasTerminal [StreamLine.ok [("type", Json.str "assistant")]] = false
      ∧ [StreamLine.ok [("type", Json.str "assistant")]].all lineWF = true
      ∧ (startRun LaunchResult.ok ⟨[StreamLine.ok [("type", Json.str "assistant")]], true⟩
          = StartOutcome.events
              (readStream [StreamLine.ok [("type", Json.str "assistant")]] none).1
        ∧ ∀ m ∈ (readStream [StreamLine.ok [("type", Json.str "assistant")]] none).1,
            m.is_complete = false) :=
  ⟨by decide, by decide,
    c3_eof_ends_without_error [StreamLine.ok [("type", Json.str "assistant")]]
      (by decide) (by decide)⟩

/-- Two strings differ when their first eight characters differ and the
first is known only through a prefix of length at least eight. -/
lemma ne_of_data_prefix (p q a : String) (r : List Char)
    (ha : a.data = p.data ++ r) (hlen : 8 ≤ p.data.length)
    (hne : p.data.take 8 ≠ q.data.take 8) : a ≠ q := by
  intro h
  apply hne
  calc p.data.take 8 = (p.data ++ r).take 8 := (List.take_append_of_le_length hlen).symm
    _ = q.data.take 8 := by rw [← ha, h]

/-- C8: in both clients, a `FileNotFoundError` while launching the
external executable raises the dedicated
`ClaudeError("Claude Code is not installed")`, and no other launch or
command failure produces that error: the streaming driver lets other
launch exceptions propagate raw, and the print client's non-zero-exit,
timeout and subprocess-error messages all differ from it. -/
theorem c8_dependency_missing_distinct (po : ProcOutput) (t : Nat) (rc : Int)
    (out err m : String) (hrc : rc ≠ 0) :
    startRun LaunchResult.fileNotFound po
        = StartOutcome.claudeError "Claude Code is not installed"
      ∧ startRun LaunchResult.otherFailure po = StartOutcome.rawError
      ∧ run_claude_print t SubprocessResult.fileNotFound
        = Except.error "Claude Code is not installed"
      ∧ run_claude_print t (SubprocessResult.completed rc out err)
        ≠ Except.error "Claude Code is not installed"
      ∧ run_claude_print t SubprocessResult.timedOut
        ≠ Except.error "Claude Code is not installed"
      ∧ run_claude_print t (SubprocessResult.subprocessError m)
        ≠ Except.error "Claude Code is not installed" := by
  refine ⟨rfl, rfl, rfl, ?_, ?_, ?_⟩
  · have hb : (rc == 0) = false := by
      simpa using hrc
    simp only [run_claude_print, hb, Bool.false_eq_true, if_false]
    intro h
    injection h with h'
    exact ne_of_data_prefix "Claude command failed: " _ _ _ rfl (by decide) (by decide) h'
  · simp only [run_claude_print]
    intro h
    injection h with h'
    refine ne_of_data_prefix "Claude command timed out after " _ _
      ((toString t).data ++ " seconds".data) ?_ (by decide) (by decide) h'
    simp [String.data_append]
  · simp only [run_claude_print]
    intro h
    injection h with h'
    exact ne_of_data_prefix "Failed to execute claude command: " _ _ _ rfl
      (by decide) (by decide) h'

/-- Witness for C8 at concrete inputs: exit code 1 with empty stderr, a
300-second timeout, and a sample subprocess error. -/
theorem c8_dependency_missing_distinct_witness :
    ((1 : Int) ≠ 0)
      ∧ (startRun LaunchResult.fileNotFound ⟨[], true⟩
            = StartOutcome.claudeError "Claude Code is not installed"
          ∧ startRun LaunchResult.otherFailure ⟨[], true⟩ = StartOutcome.rawError
          ∧ run_claude_print 300 SubprocessResult.fileNotFound
            = Except.error "Claude Code is not installed"
          ∧ run_claude_print 300 (SubprocessResult.completed 1 "" "")
            ≠ Except.error "Claude Code is not installed"
          ∧ run_claude_print 300 SubprocessResult.timedOut
            ≠ Except.error "Claude Code is not installed"
          ∧ run_claude_print 300 (SubprocessResult.subprocessError "boom")
            ≠ Except.error "Claude Code is not installed") :=
  ⟨by decide, c8_dependency_missing_distinct ⟨[], true⟩ 300 1 "" "" "boom" (by decide)⟩

/-- C9: the diff engine applied to an empty before-snapshot returns the
after-snapshot unchanged. -/
theorem c9_diff_empty_before (after : String) : diff "" after = after := by
  simp [diff]

/-- C10: any `session_mode` other than "continue" and not starting with
"resume:" — not merely the documented "fresh" — builds exactly the
fresh-mode command in both the streaming driver and the print client;
neither validates or rejects the value. -/
theorem c10_unknown_session_mode_is_fresh (prompt sm : String)
    (h1 : sm ≠ "continue") (h2 : "resume:".isPrefixOf sm = false) :
    startCmd prompt sm = startCmd prompt "fresh"
      ∧ printCmd prompt sm = printCmd prompt "fresh" := by
  have hb : (sm == "continue") = false := by
    simpa using h1
  have hf1 : (("fresh" : String) == "continue") = false := by decide
  have hf2 : "resume:".isPrefixOf "fresh" = false := by decide
  constructor <;> simp [startCmd, printCmd, hb, h2, hf1, hf2]

/-- Witness for C10 at the arbitrary session mode "banana". -/
theorem c10_unknown_session_mode_is_fresh_witness :
    ("banana" ≠ ("continue" : String))
      ∧ "resume:".isPrefixOf "banana" = false
      ∧ (startCmd "hi" "banana" = startCmd "hi" "fresh"
          ∧ printCmd "hi" "banana" = printCmd "hi" "fresh") :=
  ⟨by decide, by decide, c10_unknown_session_mode_is_fresh "hi" "banana" (by decide) (by decide)⟩
